import Mathlib

/-!
Verification of the MGNREGA dashboard frontend (`streamlit_app.py`).

We shallowly embed the pure data-transformation core of the dashboard:
the row filtering helper, the overview aggregation (backend per-state
aggregate / most-recent district row / summed fallback), the employment,
work-progress and financial aggregates, and the KPI derivations with
their `None` ("undefined") sentinels, modelled with `Option`.

Numeric conventions of the embedding:
* Python `float` values are modelled as `ℚ` (the program only performs
  exact field arithmetic: sums, means, divisions, `*100`).
* Python `int` values (counts, budgets, persondays) are modelled as `ℤ`.
* A Python value that may be `None` is modelled as `Option _`; a
  `ZeroDivisionError` swallowed by a `try/except` that resets the value
  to `None` is modelled by an explicit zero test selecting `none`.
* `data_fetched_on` is an ordered timestamp; only its ordering matters
  (the code sorts on it), so it is modelled as `ℤ`.
-/

namespace MGNREGA

/-- One record of `payload["mgnrega_data"]` (a row of the dataframe
`m_df`), restricted to the columns the dashboard reads.  JSON `null`
values are coerced by the code with `or 0` at the use sites, so the
fields are total here. -/
structure Row where
  state_name : String
  district_name : String
  data_fetched_on : ℤ
  approved_labour_budget : ℤ
  total_exp : ℚ
  average_wage_rate_per_day_per_person : ℚ
  average_days_of_employment_per_household : ℚ
  total_households_worked : ℤ
  persondays_of_central_liability_so_far : ℤ
  sc_persondays : ℤ
  st_persondays : ℤ
  women_persondays : ℤ
  total_num_of_active_workers : ℤ
  number_of_completed_works : ℤ
  number_of_ongoing_works : ℤ
  percent_of_category_B_works : ℚ
  percentage_of_expenditure_on_agriculture_allied_works : ℚ
  percent_of_NRM_expenditure : ℚ
  wages : ℚ
  material_and_skilled_wages : ℚ
  percentage_payments_generated_within_15_days : ℚ
  number_of_gp_with_nil_exp : ℤ
deriving DecidableEq, Repr

/-- `filter_data(df, state_name, district_name)` (lines 139-146).
Python string truthiness: `district_name and district_name != "All"`
requires the string to be non-empty as well as different from `"All"`;
likewise for the state.  `df[df["district_name"] == district_name]`
keeps exactly the matching rows in their original order. -/
def filter_data (df : List Row) (state_name district_name : String) : List Row :=
  if df.isEmpty then df
  else if district_name ≠ "" ∧ district_name ≠ "All" then
    df.filter (fun r => r.district_name == district_name)
  else if state_name ≠ "" ∧ state_name ≠ "All" then
    df.filter (fun r => r.state_name == state_name)
  else df

/-- `pandas.Series.mean()` on a non-empty column: sum divided by length.
The code only evaluates a mean under a `not view_df.empty` guard. -/
def seriesMean (view : List Row) (f : Row → ℚ) : ℚ :=
  (view.map f).sum / (view.length : ℚ)

/-! ### Overview aggregation (lines 172-214) -/

/-- The `state_stats` dictionary shape used by the Overview cards. -/
structure StateStats where
  approved_labour_budget : ℤ
  total_expenditure : ℚ
  avg_wage_rate : ℚ
  avg_days_of_employment_per_household : ℚ
  total_households_worked : ℤ
  percent_utilization : Option ℚ
deriving DecidableEq, Repr

/-- `view_df.sort_values("data_fetched_on", ascending=False).iloc[0]`
(line 182): the first row of the view whose `data_fetched_on` is
maximal (descending sort, then first row), `none` on an empty view. -/
def mostRecentRow : List Row → Option Row
  | [] => none
  | r :: rs =>
      some (rs.foldl
        (fun b q => if b.data_fetched_on < q.data_fetched_on then q else b) r)

/-- District branch of the overview (lines 185-199): the chosen row's raw
values are exposed directly; `percent_utilization` is derived as
`total_expenditure / approved_labour_budget * 100` under the Python
truthiness guard `if state_stats["approved_labour_budget"]:`
(that is, budget ≠ 0; a missing budget was already coerced to 0). -/
def districtStats (dr : Row) : StateStats :=
  { approved_labour_budget := dr.approved_labour_budget
    total_expenditure := dr.total_exp
    avg_wage_rate := dr.average_wage_rate_per_day_per_person
    avg_days_of_employment_per_household := dr.average_days_of_employment_per_household
    total_households_worked := dr.total_households_worked
    percent_utilization :=
      if dr.approved_labour_budget ≠ 0 then
        some (dr.total_exp / (dr.approved_labour_budget : ℚ) * 100)
      else none }

/-- Line 203: `int(view_df["approved_labour_budget"].sum()) if not view_df.empty else 0`. -/
def agg_approved_labour_budget (view : List Row) : ℤ :=
  if view.isEmpty then 0 else (view.map (fun r => r.approved_labour_budget)).sum

/-- Line 204: `float(view_df["total_exp"].sum()) if not view_df.empty else 0`. -/
def agg_total_expenditure (view : List Row) : ℚ :=
  if view.isEmpty then 0 else (view.map (fun r => r.total_exp)).sum

/-- Line 205: mean of `average_wage_rate_per_day_per_person`, 0 on empty view. -/
def agg_avg_wage_rate (view : List Row) : ℚ :=
  if view.isEmpty then 0
  else seriesMean view (fun r => r.average_wage_rate_per_day_per_person)

/-- Line 206: mean of `average_days_of_employment_per_household`, 0 on empty view. -/
def agg_avg_days_of_employment_per_household (view : List Row) : ℚ :=
  if view.isEmpty then 0
  else seriesMean view (fun r => r.average_days_of_employment_per_household)

/-- Line 207: `int(view_df["total_households_worked"].sum()) if not view_df.empty else 0`. -/
def agg_total_households_worked (view : List Row) : ℤ :=
  if view.isEmpty then 0 else (view.map (fun r => r.total_households_worked)).sum

/-- Lines 208-213: `None` unless the summed budget is truthy (≠ 0), in
which case `total_expenditure / approved_labour_budget * 100`. -/
def agg_percent_utilization (view : List Row) : Option ℚ :=
  if agg_approved_labour_budget view ≠ 0 then
    some (agg_total_expenditure view / (agg_approved_labour_budget view : ℚ) * 100)
  else none

/-- The `agg` fallback dictionary (lines 202-214). -/
def aggStats (view : List Row) : StateStats :=
  { approved_labour_budget := agg_approved_labour_budget view
    total_expenditure := agg_total_expenditure view
    avg_wage_rate := agg_avg_wage_rate view
    avg_days_of_employment_per_household := agg_avg_days_of_employment_per_household view
    total_households_worked := agg_total_households_worked view
    percent_utilization := agg_percent_utilization view }

/-- The full `state_stats` computation (lines 175-214).  `backend` is
`backend_state_map` (lookup in `kpis["by_state"]` by state name); the
first branch is taken when `selected_state != "All" and selected_state
in backend_state_map`; otherwise the district branch requires
`not view_df.empty and selected_district != "All"` (equivalently
`mostRecentRow view = some dr`), else the `agg` fallback. -/
def state_stats (backend : String → Option StateStats)
    (selected_state selected_district : String) (view : List Row) : StateStats :=
  match (if selected_state ≠ "All" then backend selected_state else none) with
  | some s => s
  | none =>
      match (if selected_district ≠ "All" then mostRecentRow view else none) with
      | some dr => districtStats dr
      | none => aggStats view

/-! ### Employment composition (lines 236-259) -/

/-- Line 236: `int(view_df["persondays_of_central_liability_so_far"].sum())`, 0 on empty. -/
def total_persondays (view : List Row) : ℤ :=
  if view.isEmpty then 0
  else (view.map (fun r => r.persondays_of_central_liability_so_far)).sum

/-- Line 237: summed `sc_persondays`, 0 on empty. -/
def sc (view : List Row) : ℤ :=
  if view.isEmpty then 0 else (view.map (fun r => r.sc_persondays)).sum

/-- Line 238: summed `st_persondays`, 0 on empty. -/
def st_ (view : List Row) : ℤ :=
  if view.isEmpty then 0 else (view.map (fun r => r.st_persondays)).sum

/-- Line 239: summed `women_persondays`, 0 on empty. -/
def women (view : List Row) : ℤ :=
  if view.isEmpty then 0 else (view.map (fun r => r.women_persondays)).sum

/-- Line 240: `other = max(total_persondays - sc - st_, 0)`. -/
def other (view : List Row) : ℤ :=
  max (total_persondays view - sc view - st_ view) 0

/-- Line 241: `other_for_women = max(total_persondays - women, 0)`. -/
def other_for_women (view : List Row) : ℤ :=
  max (total_persondays view - women view) 0

/-- Line 258: summed `total_num_of_active_workers`, 0 on empty. -/
def active_workers (view : List Row) : ℤ :=
  if view.isEmpty then 0 else (view.map (fun r => r.total_num_of_active_workers)).sum

/-- Line 259: summed `total_households_worked`, 0 on empty. -/
def households (view : List Row) : ℤ :=
  if view.isEmpty then 0 else (view.map (fun r => r.total_households_worked)).sum

/-! ### Work progress (lines 270-274) -/

/-- Line 270: summed `number_of_completed_works`, 0 on empty. -/
def completed (view : List Row) : ℤ :=
  if view.isEmpty then 0 else (view.map (fun r => r.number_of_completed_works)).sum

/-- Line 271: summed `number_of_ongoing_works`, 0 on empty. -/
def ongoing (view : List Row) : ℤ :=
  if view.isEmpty then 0 else (view.map (fun r => r.number_of_ongoing_works)).sum

/-- Line 272: mean of `percent_of_category_B_works`, 0 on empty. -/
def pct_cat_b (view : List Row) : ℚ :=
  if view.isEmpty then 0 else seriesMean view (fun r => r.percent_of_category_B_works)

/-- Line 273: mean of `percentage_of_expenditure_on_agriculture_allied_works`, 0 on empty. -/
def pct_agri (view : List Row) : ℚ :=
  if view.isEmpty then 0
  else seriesMean view (fun r => r.percentage_of_expenditure_on_agriculture_allied_works)

/-- Line 274: mean of `percent_of_NRM_expenditure`, 0 on empty. -/
def pct_nrm (view : List Row) : ℚ :=
  if view.isEmpty then 0 else seriesMean view (fun r => r.percent_of_NRM_expenditure)

/-! ### Financial performance (lines 294-303) -/

/-- Line 294: summed `wages`, 0 on empty. -/
def wages (view : List Row) : ℚ :=
  if view.isEmpty then 0 else (view.map (fun r => r.wages)).sum

/-- Line 295: summed `material_and_skilled_wages`, 0 on empty. -/
def material (view : List Row) : ℚ :=
  if view.isEmpty then 0 else (view.map (fun r => r.material_and_skilled_wages)).sum

/-- Line 296: mean of `percentage_payments_generated_within_15_days`, 0 on empty. -/
def pct_payments (view : List Row) : ℚ :=
  if view.isEmpty then 0
  else seriesMean view (fun r => r.percentage_payments_generated_within_15_days)

/-- Line 297: summed `number_of_gp_with_nil_exp`, 0 on empty. -/
def nil_gps (view : List Row) : ℤ :=
  if view.isEmpty then 0 else (view.map (fun r => r.number_of_gp_with_nil_exp)).sum

/-- Lines 298-303: `avg_cost_per_work` starts as `None` and is assigned
`float(view_df["total_exp"].sum()) / max(completed + ongoing, 1)` only
inside `if (completed + ongoing) > 0:`; the surrounding `try/except`
resets to `None` on error (the guarded division cannot raise). -/
def avg_cost_per_work (view : List Row) : Option ℚ :=
  if 0 < completed view + ongoing view then
    some ((view.map (fun r => r.total_exp)).sum
      / ((max (completed view + ongoing view) 1 : ℤ) : ℚ))
  else none

/-! ### KPI derivations (lines 326-375) -/

/-- Lines 329-334: `fem = overall.get("female_participation_rate")`;
when that is `None` and the view is non-empty, the fallback
`women_sum / persondays_sum * 100` is computed inside a `try/except`
that resets `fem` to `None` on `ZeroDivisionError` (persondays sum 0). -/
def fem (overall_fem : Option ℚ) (view : List Row) : Option ℚ :=
  match overall_fem with
  | some v => some v
  | none =>
      if view.isEmpty then none
      else if ((view.map (fun r => r.persondays_of_central_liability_so_far)).sum : ℤ) = 0
      then none
      else some ((((view.map (fun r => r.women_persondays)).sum : ℤ) : ℚ)
        / (((view.map (fun r => r.persondays_of_central_liability_so_far)).sum : ℤ) : ℚ)
        * 100)

/-- Lines 336-341: same shape for `sc_st_participation_rate`, with
numerator `sc_persondays.sum() + st_persondays.sum()`. -/
def scst (overall_scst : Option ℚ) (view : List Row) : Option ℚ :=
  match overall_scst with
  | some v => some v
  | none =>
      if view.isEmpty then none
      else if ((view.map (fun r => r.persondays_of_central_liability_so_far)).sum : ℤ) = 0
      then none
      else some (((((view.map (fun r => r.sc_persondays)).sum
          + (view.map (fun r => r.st_persondays)).sum : ℤ)) : ℚ)
        / (((view.map (fun r => r.persondays_of_central_liability_so_far)).sum : ℤ) : ℚ)
        * 100)

/-- Lines 343-348: `tpr = overall.get("average_percentage_payments_within_15_days")`;
when `None` and the view is non-empty, the mean of
`percentage_payments_generated_within_15_days` (cannot raise). -/
def tpr (overall_tpr : Option ℚ) (view : List Row) : Option ℚ :=
  match overall_tpr with
  | some v => some v
  | none =>
      if view.isEmpty then none
      else some (seriesMean view (fun r => r.percentage_payments_generated_within_15_days))

/-- Lines 351-356: `wcr = (completed / (completed + ongoing) * 100) if
(completed + ongoing) > 0 else None`, recomputing `completed`/`ongoing`
with the same guarded sums. -/
def wcr (view : List Row) : Option ℚ :=
  if 0 < completed view + ongoing view then
    some ((completed view : ℚ) / ((completed view + ongoing view : ℤ) : ℚ) * 100)
  else none

/-- Line 359: `bud_pct = overall.get("percent_utilization")` — taken
verbatim from the backend payload, with no access to the view. -/
def bud_pct (overall_percent_utilization : Option ℚ) : Option ℚ :=
  overall_percent_utilization

/-- Python 3 `round` to an integer: nearest integer, ties to even. -/
def pyRound (q : ℚ) : ℤ :=
  if q - ⌊q⌋ < 1 / 2 then ⌊q⌋
  else if 1 / 2 < q - ⌊q⌋ then ⌊q⌋ + 1
  else if ⌊q⌋ % 2 = 0 then ⌊q⌋ else ⌊q⌋ + 1

/-- Lines 371-375: the progress-bar helper
`max(0, min(100, int(round(float(v)))))` (the `except: return 0` arm is
unreachable for a numeric argument). -/
def pctClamp (v : ℚ) : ℤ :=
  max 0 (min 100 (pyRound v))

/-! ### Concrete fixtures used to evaluate the definitions -/

/-- A row with every numeric column 0, in state `"StateX"`, district `"D1"`. -/
def baseRow : Row :=
  { state_name := "StateX"
    district_name := "D1"
    data_fetched_on := 0
    approved_labour_budget := 0
    total_exp := 0
    average_wage_rate_per_day_per_person := 0
    average_days_of_employment_per_household := 0
    total_households_worked := 0
    persondays_of_central_liability_so_far := 0
    sc_persondays := 0
    st_persondays := 0
    women_persondays := 0
    total_num_of_active_workers := 0
    number_of_completed_works := 0
    number_of_ongoing_works := 0
    percent_of_category_B_works := 0
    percentage_of_expenditure_on_agriculture_allied_works := 0
    percent_of_NRM_expenditure := 0
    wages := 0
    material_and_skilled_wages := 0
    percentage_payments_generated_within_15_days := 0
    number_of_gp_with_nil_exp := 0 }

/-- A district view with expenditure but zero completed and ongoing works. -/
def viewZeroWorks : List Row :=
  [{ baseRow with total_exp := 5 }]

/-- A district view with expenditure 56 over 3 completed + 1 ongoing works. -/
def viewFourWorks : List Row :=
  [{ baseRow with
      total_exp := 56
      number_of_completed_works := 3
      number_of_ongoing_works := 1 }]

/-- The older of two records for district `"D1"` (`data_fetched_on = 1`). -/
def rowOld : Row :=
  { baseRow with
      data_fetched_on := 1
      approved_labour_budget := 100
      total_exp := 80
      average_wage_rate_per_day_per_person := 11
      average_days_of_employment_per_household := 21
      total_households_worked := 7 }

/-- The newer of two records for district `"D1"` (`data_fetched_on = 2`). -/
def rowNew : Row :=
  { baseRow with
      data_fetched_on := 2
      approved_labour_budget := 200
      total_exp := 50
      average_wage_rate_per_day_per_person := 10
      average_days_of_employment_per_household := 20
      total_households_worked := 5 }

/-- Two candidate rows for the same district differing in `data_fetched_on`. -/
def viewTwoDates : List Row := [rowOld, rowNew]

/-- A view whose aggregates yield `percent_utilization = 50`. -/
def viewHalfUsed : List Row :=
  [{ baseRow with
      approved_labour_budget := 200
      total_exp := 100 }]

/-- Three rows, two of them in `"StateX"`, the middle one in `"StateY"`. -/
def rowA : Row := { baseRow with district_name := "DA" }

/-- See `rowA`. -/
def rowB : Row := { baseRow with state_name := "StateY", district_name := "DB" }

/-- See `rowA`. -/
def rowC : Row := { baseRow with district_name := "DC" }

/-- A view with 3 completed and 1 ongoing works. -/
def viewThreeOfFour : List Row :=
  [{ baseRow with
      number_of_completed_works := 3
      number_of_ongoing_works := 1 }]

/-- A skewed view: 200 women persondays out of 100 total persondays, so the
derived female participation rate is 200 % . -/
def viewSkewed : List Row :=
  [{ baseRow with
      women_persondays := 200
      persondays_of_central_liability_so_far := 100 }]

/-! ### Selection of the most recent row -/

/-- The fold underlying `mostRecentRow` returns `dr` whenever `dr` strictly
dominates every other row on `data_fetched_on` and is reachable (either
already the accumulator or still in the list). -/
theorem foldl_latest (dr : Row) (rs : List Row) : ∀ b : Row,
    (b = dr ∨ b.data_fetched_on < dr.data_fetched_on) →
    (dr ∈ rs ∨ b = dr) →
    (∀ r ∈ rs, r ≠ dr → r.data_fetched_on < dr.data_fetched_on) →
    rs.foldl (fun b q => if b.data_fetched_on < q.data_fetched_on then q else b) b = dr := by
  induction rs with
  | nil =>
      intro b _ hmem _
      rcases hmem with h | h
      · simp at h
      · exact h
  | cons r rs ih =>
      intro b hb hmem hlt
      simp only [List.foldl_cons]
      have hlt' : ∀ q ∈ rs, q ≠ dr → q.data_fetched_on < dr.data_fetched_on :=
        fun q hq hne => hlt q (List.mem_cons_of_mem r hq) hne
      by_cases hr : r = dr
      · have hb2 : (if b.data_fetched_on < r.data_fetched_on then r else b) = dr := by
          by_cases hc : b.data_fetched_on < r.data_fetched_on
          · rw [if_pos hc]
            exact hr
          · rcases hb with hbd | hblt
            · rw [if_neg hc]
              exact hbd
            · exfalso
              apply hc
              rw [hr]
              exact hblt
        rw [hb2]
        exact ih dr (Or.inl rfl) (Or.inr rfl) hlt'
      · have hrlt : r.data_fetched_on < dr.data_fetched_on :=
          hlt r (List.mem_cons_self r rs) hr
        have hb2 : (if b.data_fetched_on < r.data_fetched_on then r else b) = dr ∨
            (if b.data_fetched_on < r.data_fetched_on then r else b).data_fetched_on
              < dr.data_fetched_on := by
          by_cases hc : b.data_fetched_on < r.data_fetched_on
          · right
            rw [if_pos hc]
            exact hrlt
          · rcases hb with hbd | hblt
            · left
              rw [if_neg hc]
              exact hbd
            · right
              rw [if_neg hc]
              exact hblt
        have hmem2 : dr ∈ rs ∨
            (if b.data_fetched_on < r.data_fetched_on then r else b) = dr := by
          rcases hmem with hin | hbd
          · rcases List.mem_cons.mp hin with h1 | h2
            · exact absurd h1.symm hr
            · exact Or.inl h2
          · right
            have hc : ¬ b.data_fetched_on < r.data_fetched_on := by
              rw [hbd]
              exact not_lt.mpr (le_of_lt hrlt)
            rw [if_neg hc]
            exact hbd
        exact ih _ hb2 hmem2 hlt'

/-- `mostRecentRow` returns the unique row with maximal `data_fetched_on`. -/
theorem mostRecentRow_eq (view : List Row) (dr : Row) (hmem : dr ∈ view)
    (hmax : ∀ r ∈ view, r ≠ dr → r.data_fetched_on < dr.data_fetched_on) :
    mostRecentRow view = some dr := by
  cases view with
  | nil => simp at hmem
  | cons r rs =>
      simp only [mostRecentRow, Option.some.injEq]
      have hlt' : ∀ q ∈ rs, q ≠ dr → q.data_fetched_on < dr.data_fetched_on :=
        fun q hq hne => hmax q (List.mem_cons_of_mem r hq) hne
      by_cases hr : r = dr
      · exact foldl_latest dr rs r (Or.inl hr) (Or.inr hr) hlt'
      · have hrlt : r.data_fetched_on < dr.data_fetched_on :=
          hmax r (List.mem_cons_self r rs) hr
        have hin : dr ∈ rs := by
          rcases List.mem_cons.mp hmem with h | h
          · exact absurd h.symm hr
          · exact h
        exact foldl_latest dr rs r (Or.inr hrlt) (Or.inl hin) hlt'

/-! ### Claims -/

/-- Claim C1, counterexample.  The claim says `avg_cost_per_work` is computed
unconditionally as `sum(total_exp) / max(completed + ongoing, 1)`, yielding a
defined 0 when `completed + ongoing = 0`.  On a view with expenditure 5 and
no works the code yields the undefined sentinel `None`, not 0 (line 300
guards the assignment with `if (completed + ongoing) > 0`). -/
theorem C1_unconditional_avg_cost_refuted :
    avg_cost_per_work viewZeroWorks = none ∧
    avg_cost_per_work viewZeroWorks ≠ some 0 := by
  constructor <;> decide

/-- Claim C1, amended: `avg_cost_per_work` is `sum(total_exp)` divided by
`completed + ongoing` only when `completed + ongoing > 0` (the `max(…, 1)`
in the denominator is then vacuous); when `completed + ongoing = 0` it is
the undefined sentinel `None`, like the other ratio KPIs. -/
theorem C1_avg_cost_guarded (view : List Row) :
    (completed view + ongoing view = 0 → avg_cost_per_work view = none) ∧
    (0 < completed view + ongoing view →
      avg_cost_per_work view =
        some ((view.map (fun r => r.total_exp)).sum
          / ((completed view + ongoing view : ℤ) : ℚ))) := by
  constructor
  · intro h
    unfold avg_cost_per_work
    simp [h]
  · intro h
    have hmax : max (completed view + ongoing view) 1 = completed view + ongoing view :=
      max_eq_left (by omega)
    unfold avg_cost_per_work
    simp [h, hmax]

/-- Claim C1, witness: on a view with expenditure 56 over 3 completed and
1 ongoing works the average cost per work is 14. -/
theorem C1_avg_cost_guarded_witness :
    avg_cost_per_work viewFourWorks = some 14 := by
  have h := (C1_avg_cost_guarded viewFourWorks).2 (by decide)
  rw [h]
  norm_num [viewFourWorks, baseRow, completed, ongoing]

/-- Claim C3: when the summed `persondays_of_central_liability_so_far` of the
view is 0 and the backend omits the rates, the derived
`female_participation_rate` and `sc_st_participation_rate` are the undefined
sentinel `None` (the `ZeroDivisionError` is caught and resets them), never a
computed 0 — even when the numerators are also 0. -/
theorem C3_participation_undefined_at_zero (view : List Row)
    (h : (view.map (fun r => r.persondays_of_central_liability_so_far)).sum = 0) :
    fem none view = none ∧ scst none view = none := by
  unfold fem scst
  by_cases he : view.isEmpty <;> simp [he, h]

/-- Claim C3, witness: a non-empty view with all persondays 0 (women and
SC/ST persondays are 0 as well) still yields `None` for both rates. -/
theorem C3_participation_undefined_at_zero_witness :
    fem none [baseRow] = none ∧ scst none [baseRow] = none :=
  C3_participation_undefined_at_zero [baseRow] (by decide)

/-- Claim C4: when the backend payload carries
`overall.percent_utilization`, the budget-utilization KPI is that value
verbatim (`bud_pct` reads only the backend field and never sees the view);
in particular on `viewHalfUsed`, whose aggregates would yield 50, a backend
value of 10 is displayed unchanged. -/
theorem C4_backend_utilization_verbatim (v : ℚ) :
    bud_pct (some v) = some v ∧
    (bud_pct (some 10) = some 10 ∧ agg_percent_utilization viewHalfUsed = some 50) := by
  refine ⟨rfl, rfl, ?_⟩
  norm_num [agg_percent_utilization, agg_total_expenditure, agg_approved_labour_budget,
    viewHalfUsed, baseRow]

/-- Claim C6: on an empty filtered view every `sum` aggregate and every
`mean` aggregate of the dashboard equals its documented default 0, and each
aggregation is a total function (no error is possible). -/
theorem C6_empty_view_defaults :
    agg_approved_labour_budget [] = 0 ∧ agg_total_expenditure [] = 0 ∧
    agg_avg_wage_rate [] = 0 ∧ agg_avg_days_of_employment_per_household [] = 0 ∧
    agg_total_households_worked [] = 0 ∧ total_persondays [] = 0 ∧
    sc [] = 0 ∧ st_ [] = 0 ∧ women [] = 0 ∧ active_workers [] = 0 ∧
    households [] = 0 ∧ completed [] = 0 ∧ ongoing [] = 0 ∧
    pct_cat_b [] = 0 ∧ pct_agri [] = 0 ∧ pct_nrm [] = 0 ∧
    wages [] = 0 ∧ material [] = 0 ∧ pct_payments [] = 0 ∧ nil_gps [] = 0 := by
  decide

/-- Claim C7: `work_completion_ratio` is
`completed / (completed + ongoing) * 100` whenever `completed + ongoing > 0`
and the undefined sentinel `None` when `completed + ongoing = 0`. -/
theorem C7_work_completion_ratio (view : List Row) :
    (completed view + ongoing view = 0 → wcr view = none) ∧
    (0 < completed view + ongoing view →
      wcr view = some ((completed view : ℚ)
        / ((completed view + ongoing view : ℤ) : ℚ) * 100)) := by
  constructor
  · intro h
    unfold wcr
    simp [h]
  · intro h
    unfold wcr
    simp [h]

/-- Claim C7, witness: 3 completed and 1 ongoing works give 75, and an empty
view (0 completed, 0 ongoing) gives `None`. -/
theorem C7_work_completion_ratio_witness :
    wcr viewThreeOfFour = some 75 ∧ wcr [] = none := by
  constructor
  · have h := (C7_work_completion_ratio viewThreeOfFour).2 (by decide)
    rw [h]
    norm_num [viewThreeOfFour, baseRow, completed, ongoing]
  · exact (C7_work_completion_ratio []).1 (by decide)

/-- Claim C8: `other` and `other_for_women` are clamped below at 0 by
`max(…, 0)`, so they are never negative for any view, whatever the skew of
the input data. -/
theorem C8_other_nonneg (view : List Row) :
    0 ≤ other view ∧ 0 ≤ other_for_women view := by
  unfold other other_for_women
  exact ⟨le_max_right _ _, le_max_right _ _⟩

/-- Claim C2: with a district selected (`selected_district ≠ "All"`), a
non-empty view, and no backend per-state aggregate for the selected state,
`state_stats` picks the unique row `dr` with the latest `data_fetched_on`
(strictly later than every other row, so the descending sort is
deterministic), exposes its raw field values as the Aggregates, and derives
`percent_utilization = total_expenditure / approved_labour_budget * 100`,
undefined (`None`) when the budget is 0 (a missing budget having been
coerced to 0 by `or 0`). -/
theorem C2_district_latest_row (backend : String → Option StateStats)
    (s d : String) (view : List Row) (dr : Row)
    (hb : backend s = none) (hd : d ≠ "All") (hmem : dr ∈ view)
    (hmax : ∀ r ∈ view, r ≠ dr → r.data_fetched_on < dr.data_fetched_on) :
    state_stats backend s d view =
      { approved_labour_budget := dr.approved_labour_budget
        total_expenditure := dr.total_exp
        avg_wage_rate := dr.average_wage_rate_per_day_per_person
        avg_days_of_employment_per_household := dr.average_days_of_employment_per_household
        total_households_worked := dr.total_households_worked
        percent_utilization :=
          if dr.approved_labour_budget ≠ 0 then
            some (dr.total_exp / (dr.approved_labour_budget : ℚ) * 100)
          else none } := by
  have h1 : (if s ≠ "All" then backend s else none) = none := by
    by_cases hs : s = "All" <;> simp [hs, hb]
  have h2 : (if d ≠ "All" then mostRecentRow view else none) = some dr := by
    rw [if_pos hd]
    exact mostRecentRow_eq view dr hmem hmax
  unfold state_stats
  simp only [h1, h2]
  rfl

/-- Claim C2, witness: of two rows for district `"D1"` differing in
`data_fetched_on`, the chronologically latest one (budget 200, expenditure
50) is selected and yields `percent_utilization = 25`. -/
theorem C2_district_latest_row_witness :
    state_stats (fun _ => none) "StateX" "D1" viewTwoDates =
      { approved_labour_budget := 200
        total_expenditure := 50
        avg_wage_rate := 10
        avg_days_of_employment_per_household := 20
        total_households_worked := 5
        percent_utilization := some 25 } := by
  have h := C2_district_latest_row (fun _ => none) "StateX" "D1" viewTwoDates rowNew
    rfl (by decide) (by decide) (by decide)
  rw [h]
  norm_num [rowNew, baseRow]

/-- Claim C5, counterexample.  The claim quantifies over every selection
pair and keys the district branch on `district ≠ "All"` alone, but the code
tests Python truthiness first (`district_name and district_name != "All"`):
for the empty-string district (values not equal to `"All"`) the state filter
is applied instead of the district filter, so on a one-row set in
`"StateX"` the result is the full row, not the empty set of rows whose
district is `""`. -/
theorem C5_empty_district_refuted :
    filter_data [baseRow] "StateX" "" ≠
      List.filter (fun r => r.district_name == "") [baseRow] ∧
    filter_data [baseRow] "StateX" "" = [baseRow] ∧
    List.filter (fun r => r.district_name == "") [baseRow] = [] := by
  refine ⟨?_, ?_, ?_⟩ <;> decide

/-- Claim C5, amended: for every row set and selection pair, district
selection takes precedence when the district is non-empty and not `"All"`
(state filtering is not reapplied); otherwise a non-empty state other than
`"All"` selects exactly the rows of that state; otherwise the full row set
is returned.  Every result is a sublist of the input, so the original
relative order is preserved. -/
theorem C5_filter_precedence (df : List Row) (s d : String) :
    List.Sublist (filter_data df s d) df ∧
    (d ≠ "" → d ≠ "All" →
      filter_data df s d = df.filter (fun r => r.district_name == d)) ∧
    (d = "" ∨ d = "All" → s ≠ "" → s ≠ "All" →
      filter_data df s d = df.filter (fun r => r.state_name == s)) ∧
    (d = "" ∨ d = "All" → s = "" ∨ s = "All" → filter_data df s d = df) := by
  refine ⟨?_, ?_, ?_, ?_⟩
  · unfold filter_data
    split_ifs
    · exact List.Sublist.refl df
    · exact List.filter_sublist df
    · exact List.filter_sublist df
    · exact List.Sublist.refl df
  · intro hd1 hd2
    cases df with
    | nil => simp [filter_data]
    | cons r rs =>
        unfold filter_data
        rw [if_neg (by simp), if_pos ⟨hd1, hd2⟩]
  · intro hd hs1 hs2
    cases df with
    | nil => simp [filter_data]
    | cons r rs =>
        unfold filter_data
        have hdno : ¬(d ≠ "" ∧ d ≠ "All") := by
          rcases hd with h | h <;> simp [h]
        rw [if_neg (by simp), if_neg hdno, if_pos ⟨hs1, hs2⟩]
  · intro hd hs
    cases df with
    | nil => simp [filter_data]
    | cons r rs =>
        unfold filter_data
        have hdno : ¬(d ≠ "" ∧ d ≠ "All") := by
          rcases hd with h | h <;> simp [h]
        have hsno : ¬(s ≠ "" ∧ s ≠ "All") := by
          rcases hs with h | h <;> simp [h]
        rw [if_neg (by simp), if_neg hdno, if_neg hsno]

/-- Claim C5, witness: filtering three rows (two in `"StateX"`, one in
`"StateY"`) by district `"All"` and state `"StateX"` returns exactly the two
`"StateX"` rows in their original relative order. -/
theorem C5_filter_precedence_witness :
    filter_data [rowA, rowB, rowC] "StateX" "All" = [rowA, rowC] := by
  have h := (C5_filter_precedence [rowA, rowB, rowC] "StateX" "All").2.2.1
    (Or.inr rfl) (by decide) (by decide)
  rw [h]
  decide

/-- Claim C9: the clamp to the integer range [0, 100] exists only in the
progress-indicator display helper `pctClamp` (`_pct`), whose output always
lies in [0, 100]; the stored/derived KPI values themselves are never
clamped: `bud_pct` passes the backend value through unchanged, and the
derived female participation rate on a skewed view is 200 (exceeding 100 and
surfaced as such), while its display value clamps to 100. -/
theorem C9_clamp_only_display :
    (∀ v : ℚ, 0 ≤ pctClamp v ∧ pctClamp v ≤ 100) ∧
    (∀ o : Option ℚ, bud_pct o = o) ∧
    fem none viewSkewed = some 200 ∧ pctClamp 200 = 100 := by
  refine ⟨?_, fun o => rfl, ?_, ?_⟩
  · intro v
    unfold pctClamp
    exact ⟨le_max_left 0 _, max_le (by norm_num) (min_le_left _ _)⟩
  · norm_num [fem, viewSkewed, baseRow]
  · have h200 : pyRound 200 = 200 := by
      norm_num [pyRound]
    unfold pctClamp
    rw [h200]
    decide

/-- Claim C10: when the backend omits a KPI and the filtered view is empty,
the fallback derivation does not run: `female_participation_rate`,
`sc_st_participation_rate` and `average_percentage_payments_within_15_days`
all remain the undefined sentinel `None`. -/
theorem C10_empty_view_no_fallback :
    fem none [] = none ∧ scst none [] = none ∧ tpr none [] = none := by
  refine ⟨rfl, rfl, rfl⟩

end MGNREGA
